import Mathlib

/-!
Verification of the XRT / CED batch record pipeline.

This file gives a shallow embedding of the two pipeline variants of the
repository (src/dataXRT.py and src/dataCED.py) and proves or refutes the
frozen specification claims about them.

Modelling conventions:
- a CSV cell read by pandas with dtype=str is `PCell`: an empty cell stays
  a float NaN (`PCell.nan`), anything else is raw text (`PCell.str`);
- external collaborators (SOAP service, ODBC driver, S3) are modelled as
  response oracles passed in as functions, one response per call;
- Python functions returning None-or-error-string become `Option String`
  (none = success), raised exceptions become `Except` / truncated traces.
-/

/-- Cell value produced by pandas read_csv with dtype=str and no NaN
replacement: an empty or NaN-like token is a float NaN, any other token is
kept as raw text. -/
inductive PCell
  | nan
  | str (s : String)
deriving DecidableEq, Repr

/-- Observable staging events for one file: uploading a result artifact to
its remote prefix, deleting the original object from the remote pending
prefix, deleting the local pending copy. -/
inductive Ev
  | uploadSuccessArtifact
  | uploadErrorArtifact
  | deleteRemote
  | deleteLocal
deriving DecidableEq, Repr

/-- Ordering invariant of the staging lifecycle for one file, over the
trace of completed events: the local deletion only happens after the
remote deletion, and the remote deletion only happens after every result
artifact that exists (success / error, as flagged) has been uploaded. -/
def staged_ok (exSucc exErr : Bool) (t : List Ev) : Prop :=
  (Ev.deleteLocal ∈ t → Ev.deleteRemote ∈ t ∧
      t.indexOf Ev.deleteRemote < t.indexOf Ev.deleteLocal) ∧
  (Ev.deleteRemote ∈ t →
    (exSucc = true → Ev.uploadSuccessArtifact ∈ t ∧
        t.indexOf Ev.uploadSuccessArtifact < t.indexOf Ev.deleteRemote) ∧
    (exErr = true → Ev.uploadErrorArtifact ∈ t ∧
        t.indexOf Ev.uploadErrorArtifact < t.indexOf Ev.deleteRemote))

instance (exSucc exErr : Bool) (t : List Ev) : Decidable (staged_ok exSucc exErr t) := by
  unfold staged_ok
  infer_instance

namespace XRT

/-- Python str() applied to a cell of a dtype=str dataframe, as used in
the join building the csv record: str(nan) is the literal text "nan". -/
def strVal : PCell → String
  | .nan => "nan"
  | .str s => s

/-- One row of the parsed dataframe (row.values). -/
abbrev Row := List PCell

/-- Behaviour of one importCSVRecords web-service call, as distinguished by
call_exchange_rate_service: success, an application-level zeep Fault whose
deserialized detail carries an explanation, or a requests Timeout /
ConnectionError carrying the raw transport error text. -/
inductive WsResponse
  | ok
  | fault (explanation : String)
  | timeout (rawDetail : String)
  | connError (rawDetail : String)
deriving DecidableEq, Repr

/-- The fixed human-readable message returned for transport failures. -/
def connectionFailedMessage : String :=
  "SICS server connection attempt has failed. Please try again."

/-- call_exchange_rate_service: returns None on success, the fault detail
explanation on an application fault, and the fixed message on a requests
Timeout or ConnectionError (the raw transport error is discarded). -/
def call_exchange_rate_service (resp : WsResponse) : Option String :=
  match resp with
  | .ok => none
  | .fault explanation => some explanation
  | .timeout _ => some connectionFailedMessage
  | .connError _ => some connectionFailedMessage

/-- Characters of a string up to (excluding) the first occurrence of the
two-character separator ". ": this is Python error_message.split(". ")[0]. -/
def takeUntilSentenceEnd : List Char → List Char
  | [] => []
  | c :: rest =>
    if c = '.' ∧ rest.head? = some ' ' then [] else c :: takeUntilSentenceEnd rest

/-- Whether the separator ". " occurs in the character list. -/
def hasDotSpace : List Char → Bool
  | [] => false
  | c :: rest => (c == '.' && rest.head? == some ' ') || hasDotSpace rest

/-- error_message.split(". ")[0] as a string function. -/
def truncate_reason (s : String) : String := ⟨takeUntilSentenceEnd s.data⟩

/-- The string handed to the web service for one row:
','.join(str(val) for val in row.values). -/
def csvRecordOf (row : Row) : String := String.intercalate "," (row.map strVal)

/-- The per-row loop of process_exchange_rate_file. `svc i` is the service
response to the i-th call. Returns (error_records, success_records); a row
whose call returns a truthy error message is appended the message truncated
at the first ". " and collected in error_records, otherwise the row goes to
success_records. Order of rows is preserved in both groups. -/
def processRows (svc : Nat → WsResponse) : List Row → Nat → List Row × List Row
  | [], _ => ([], [])
  | row :: rest, i =>
    let error_message := call_exchange_rate_service (svc i)
    let result := processRows svc rest (i + 1)
    match error_message with
    | some m =>
      if m = "" then (result.1, row :: result.2)
      else ((row ++ [PCell.str (truncate_reason m)]) :: result.1, result.2)
    | none => (result.1, row :: result.2)

/-- The failure message the i-th service call produces, if any: none when
the call succeeds or returns a falsy (empty) message. -/
def rowFailMsg (svc : Nat → WsResponse) (i : Nat) : Option String :=
  match call_exchange_rate_service (svc i) with
  | some m => if m = "" then none else some m
  | none => none

theorem processRows_chr (svc : Nat → WsResponse) :
    ∀ (rows : List Row) (i : Nat),
      (processRows svc rows i).1 =
        ((rows.enumFrom i).filter (fun p => (rowFailMsg svc p.1).isSome)).map
          (fun p => p.2 ++ [PCell.str (truncate_reason ((rowFailMsg svc p.1).getD ""))]) ∧
      (processRows svc rows i).2 =
        ((rows.enumFrom i).filter (fun p => (rowFailMsg svc p.1).isNone)).map Prod.snd := by
  intro rows
  induction rows with
  | nil => intro i; simp [processRows]
  | cons row rest ih =>
    intro i
    have h := ih (i + 1)
    simp only [processRows, List.enumFrom, List.filter, List.map]
    unfold rowFailMsg
    cases hc : call_exchange_rate_service (svc i) with
    | none =>
      simp only [hc, Option.isSome_none, Option.isNone_none]
      simp [h.1, h.2, rowFailMsg]
    | some m =>
      by_cases hm : m = ""
      · simp only [hc, hm]
        simp [h.1, h.2, rowFailMsg]
      · simp only [hc, if_neg hm]
        simp [h.1, h.2, rowFailMsg, hm, hc]

theorem processRows_length (svc : Nat → WsResponse) (rows : List Row) (i : Nat) :
    (processRows svc rows i).1.length + (processRows svc rows i).2.length = rows.length := by
  induction rows generalizing i with
  | nil => simp [processRows]
  | cons row rest ih =>
    have h := ih (i + 1)
    simp only [processRows, List.length_cons]
    cases call_exchange_rate_service (svc i) with
    | none =>
      simp only [List.length_cons]
      omega
    | some m =>
      by_cases hm : m = "" <;> simp [hm] <;> omega

/-- original_filename.rsplit('.', 1) when the name contains a dot: splits
at the last dot into (base, extension). none when there is no dot. -/
def rsplitExt (cs : List Char) : Option (List Char × List Char) :=
  let r := cs.reverse
  let e := r.takeWhile (fun c => c != '.')
  match r.dropWhile (fun c => c != '.') with
  | '.' :: restBase => some (restBase.reverse, e.reverse)
  | _ => none

/-- Output filename derivation of _save_and_upload_results: rsplit('.', 1);
with an extension the suffix goes right before the last dot, with no dot
the suffix is appended. -/
def xrt_output_filename (original_filename suffix : String) : String :=
  match rsplitExt original_filename.data with
  | some (base, ext) => ⟨base ++ suffix.data ++ '.' :: ext⟩
  | none => original_filename ++ suffix

/-- Rows written by _save_and_upload_results: pd.DataFrame(records).to_csv
with header=False writes exactly the record rows and no header row. -/
def xrt_artifact_rows (records : List Row) : List Row := records

/-- Results from processing a single file (ProcessingResult): counts and,
in place of the output paths, the row content of each produced artifact. -/
structure ProcessingResult where
  success_count : Nat := 0
  error_count : Nat := 0
  success_file : Option (List Row) := none
  error_file : Option (List Row) := none
deriving DecidableEq, Repr

/-- Record-level behaviour of process_exchange_rate_file: partition the
rows via the per-row service calls, then save an error artifact only when
there are error records and a success artifact only when there are success
records (an empty group produces no file and leaves its count at 0). -/
def xrt_process_file (svc : Nat → WsResponse) (rows : List Row) : ProcessingResult :=
  let groups := processRows svc rows 0
  let afterErrors : ProcessingResult :=
    if groups.1 = [] then {} else
      { error_count := groups.1.length, error_file := some (xrt_artifact_rows groups.1) }
  if groups.2 = [] then afterErrors else
    { afterErrors with
        success_count := groups.2.length,
        success_file := some (xrt_artifact_rows groups.2) }

/-- Staging behaviour of one file in the XRT pipeline: the events that
complete, in order, and whether an exception was raised. Failure of any
step (parse, artifact upload, local move, remote delete, local delete)
raises and stops the sequence; in run_exchange_rate_pipeline there is no
per-file handler, so a raised exception aborts the whole run. The error
artifact is handled before the success artifact. -/
def xrt_file_step (parseFails hasErrors uploadErrFails moveErrFails hasSuccesses
    uploadOkFails moveOkFails deleteRemoteFails deleteLocalFails : Bool) :
    List Ev × Bool :=
  if parseFails then ([], true)
  else if hasErrors && uploadErrFails then ([], true)
  else
    let t1 : List Ev := if hasErrors then [.uploadErrorArtifact] else []
    if hasErrors && moveErrFails then (t1, true)
    else if hasSuccesses && uploadOkFails then (t1, true)
    else
      let t2 := t1 ++ (if hasSuccesses then [.uploadSuccessArtifact] else [])
      if hasSuccesses && moveOkFails then (t2, true)
      else if deleteRemoteFails then (t2, true)
      else
        let t3 := t2 ++ [Ev.deleteRemote]
        if deleteLocalFails then (t3, true)
        else (t3 ++ [Ev.deleteLocal], false)

/-- The per-file loop of run_exchange_rate_pipeline over the downloaded
files. `steps i` is the (trace, raised) behaviour of the i-th file. A
raised exception propagates to the outer handler, which logs and
re-raises: the run aborts at the first failing file and the remaining
files are not processed. On success, returns the processed filenames. -/
def xrt_run_loop (steps : Nat → List Ev × Bool) : List String → Nat →
    Except String (List String)
  | [], _ => .ok []
  | f :: rest, i =>
    if (steps i).2 then .error f
    else
      match xrt_run_loop steps rest (i + 1) with
      | .ok done => .ok (f :: done)
      | .error e => .error e

end XRT

namespace CED

/-- Column definitions for the CEDE_INTERFACE table (CSV display order). -/
def COLUMNS_TO_USE : List String := [
  "PID", "STATUS", "IMPORT_TS", "BATCH_NAME", "CREATION_TS", "RECORD_TYPE", "RECORD_UNIQUE_ID",
  "PRIM_SYS", "ACCESS_CODE", "BASE_COMPANY", "EC", "CURRENCY", "DTL_AMT", "AS_AT", "OCC_YR",
  "UW_YEAR", "AC_YEAR", "AC_REF_PERIOD", "AC_START_DATE", "AC_END_DATE", "DATE_OF_BOOKING",
  "BOOKING_YEAR", "BOOKING_YEAR_2", "BOOKING_YEAR_3", "BOOKING_PERIOD", "BOOKING_PERIOD2",
  "BOOKING_PERIOD3", "DTL_COMMENT", "CEDE", "WS_IDENTIFIER", "WS_TITLE", "IS_ESTIMATE",
  "UDF_TXT1", "UDF_TXT2", "UDF_TXT3", "POLICY_ID", "POLICY_TITLE", "POLICY_FORMER_ID", "IP_START",
  "IP_END", "ORIGINAL_IP_START", "ORIGINAL_IP_END", "AUTOMATIC_PROT_ASS", "REASON_FOR_MANPROT",
  "SECTION_EXT_ID", "SECTION_NAME", "ATT_FROM", "ATT_TO", "SEC_CURRENCY", "MAIN_LIMIT",
  "MAIN_LIMIT_TYPE", "TOTAL_GROSS_P", "SHARE_PCT", "COUNTRY", "COUNTRY_GRP", "STATE", "STATE_GRP",
  "MCOB", "COB", "SCOB", "ADDL_CLASS_1", "ADDL_CLASS_2", "ADDL_CLASS_3", "ADDL_CLASS_4",
  "ADDL_CLASS_5", "ADDL_CLASS_6", "ADDL_CLASS_7", "ADDL_CLASS_8", "ADDL_CLASS_9", "ADDL_CLASS_10",
  "ADDL_CLASS_11", "REP_UNIT_1", "REP_UNIT_2", "REP_UNIT_3", "ORIGIN_OF_BUS", "PERIL", "CLAIM_ID",
  "HL_LOSS_ID", "HL_LOSS_NAME", "DOL_BEGIN", "DOL_END", "INCL_IN_REC_ORDER", "ACC_AS_OF_DATE",
  "CAUSE_OF_LOSS", "CONSEQUENCE_OF_LOSS", "CLAIM_NAME", "RISKNAME", "CLAIM_UDF_TXT1",
  "CLAIM_UDF_TXT2", "CLAIM_UDF_TXT3", "PC_LIMIT_INFO1", "PC_LIMIT_INFO1_TYPE", "PC_LIMIT_INFO2",
  "PC_LIMIT_INFO2_TYPE", "PC_DECL_ID", "PC_DECL_NAME", "PC_DECL_ATT_FROM", "PC_DECL_ATT_TO",
  "PC_DECL_MAIN_L", "PC_DECL_CURR", "PC_INSURED_ID", "PC_INSURED_NAME", "PC_RUG", "PC_RUG_NAME",
  "PC_RUG_SEQUENT", "PC_IO_ID", "PC_IO_NAME", "PC_IO_TYPE", "PC_CLAIM_BASIS", "LF_TRANS_TYPE",
  "LF_SAR", "LF_XTRA_MORTAL_PCT", "LF_OTHER_XTRA_PREM", "LF_CALC_BASIS", "LF_AGE",
  "LF_RETIREMENT_AGE", "LF_SMOKER_STATUS", "LF_OCCUPATION_CLS", "LF_RISK_CLASS",
  "LF_DISABILITY_CLS", "LF_ESCALATION", "LF_IAB_IDENTIFIER", "LF_IAB_BEGIN_DATE",
  "LF_IO_PERSON_ID", "LF_IO_PERSON_NAME", "LF_IO_ALIAS", "LF_IO_DT_OF_BIRTH",
  "LF_IO_BIRTH_COUNTRY", "LF_IO_NATIONALITY", "LF_IO_PERSON_STATUS", "LF_IO_GENDER",
  "REASON_FOR_CHANGE", "CLAIM_ADVISED_DT", "AUTO_LGT_CL_PT_ASS", "REA_LGT_CL_MANPT", "UDF_PCT1",
  "UDF_PCT2", "UDF_PCT3", "UDF_PCT4", "UDF_TXT4", "FSK_UDF_REF_DATA", "FRK_UDF_REF_DATA",
  "UDF_AMT1_AMT", "FK_UDF_AMT1_CY", "UDF_AMT2_AMT", "FK_UDF_AMT2_CY", "UDF_AMT3_AMT",
  "FK_UDF_AMT3_CY", "UDF_AMT4_AMT", "FK_UDF_AMT4_CY", "UDF_AMT5_AMT", "FK_UDF_AMT5_CY",
  "CLMS_TRIG_DT", "CLAIMS_TRIG", "CLAIMANT", "PC_ASSISTANCE_KEY", "PC_NUM_OF_INSRD_OBJ",
  "CLAIM_STATUS", "HL_DOL_BEGIN", "HL_DOL_END", "PC_RUG_PROP_GRP", "PC_RUG_AUTOMATIC_PROT_ASS",
  "PC_RUG_TOP_LOCATION", "PC_RUG_REASON_FOR_MANPROT", "PC_ACCU_EXCL", "PC_PA_INHERIT_EXCL",
  "CLAIM_SHORT_DESC", "FK_ORDER", "FK_LIGHT_DETAIL", "VERSION"
]

/-- Column order for the INSERT statement (differs from the CSV order). -/
def INSERT_COLUMN_ORDER : List String := [
  "IMPORT_TS", "CREATION_TS", "RECORD_TYPE", "DTL_AMT", "AS_AT", "OCC_YR", "UW_YEAR", "AC_YEAR",
  "AC_START_DATE", "AC_END_DATE", "DATE_OF_BOOKING", "BOOKING_YEAR", "BOOKING_YEAR_2",
  "BOOKING_YEAR_3", "CEDE", "IS_ESTIMATE", "IP_START", "IP_END", "ORIGINAL_IP_START",
  "ORIGINAL_IP_END", "AUTOMATIC_PROT_ASS", "ATT_FROM", "ATT_TO", "MAIN_LIMIT", "TOTAL_GROSS_P",
  "SHARE_PCT", "DOL_BEGIN", "DOL_END", "INCL_IN_REC_ORDER", "ACC_AS_OF_DATE", "PC_LIMIT_INFO1",
  "PC_LIMIT_INFO2", "PC_DECL_ATT_FROM", "PC_DECL_ATT_TO", "PC_DECL_MAIN_L", "PC_RUG_SEQUENT",
  "LF_SAR", "LF_XTRA_MORTAL_PCT", "LF_OTHER_XTRA_PREM", "LF_AGE", "LF_RETIREMENT_AGE",
  "LF_IAB_BEGIN_DATE", "LF_IO_DT_OF_BIRTH", "CLAIM_ADVISED_DT", "AUTO_LGT_CL_PT_ASS", "UDF_PCT1",
  "UDF_PCT2", "UDF_PCT3", "UDF_PCT4", "FSK_UDF_REF_DATA", "UDF_AMT1_AMT", "FK_UDF_AMT1_CY",
  "UDF_AMT2_AMT", "FK_UDF_AMT2_CY", "UDF_AMT3_AMT", "FK_UDF_AMT3_CY", "UDF_AMT4_AMT",
  "FK_UDF_AMT4_CY", "UDF_AMT5_AMT", "FK_UDF_AMT5_CY", "CLMS_TRIG_DT", "PC_NUM_OF_INSRD_OBJ",
  "HL_DOL_BEGIN", "HL_DOL_END", "PC_RUG_PROP_GRP", "PC_RUG_AUTOMATIC_PROT_ASS",
  "PC_RUG_TOP_LOCATION", "PC_ACCU_EXCL", "PC_PA_INHERIT_EXCL", "VERSION", "PID", "STATUS",
  "BATCH_NAME", "RECORD_UNIQUE_ID", "PRIM_SYS", "ACCESS_CODE", "BASE_COMPANY", "EC", "CURRENCY",
  "AC_REF_PERIOD", "BOOKING_PERIOD", "BOOKING_PERIOD2", "BOOKING_PERIOD3", "DTL_COMMENT",
  "WS_IDENTIFIER", "WS_TITLE", "UDF_TXT1", "UDF_TXT2", "UDF_TXT3", "POLICY_ID", "POLICY_TITLE",
  "POLICY_FORMER_ID", "REASON_FOR_MANPROT", "SECTION_EXT_ID", "SECTION_NAME", "SEC_CURRENCY",
  "MAIN_LIMIT_TYPE", "COUNTRY", "COUNTRY_GRP", "STATE", "STATE_GRP", "MCOB", "COB", "SCOB",
  "ADDL_CLASS_1", "ADDL_CLASS_2", "ADDL_CLASS_3", "ADDL_CLASS_4", "ADDL_CLASS_5", "ADDL_CLASS_6",
  "ADDL_CLASS_7", "ADDL_CLASS_8", "ADDL_CLASS_9", "ADDL_CLASS_10", "ADDL_CLASS_11", "REP_UNIT_1",
  "REP_UNIT_2", "REP_UNIT_3", "ORIGIN_OF_BUS", "PERIL", "CLAIM_ID", "HL_LOSS_ID", "HL_LOSS_NAME",
  "CAUSE_OF_LOSS", "CONSEQUENCE_OF_LOSS", "CLAIM_NAME", "RISKNAME", "CLAIM_UDF_TXT1",
  "CLAIM_UDF_TXT2", "CLAIM_UDF_TXT3", "PC_LIMIT_INFO1_TYPE", "PC_LIMIT_INFO2_TYPE", "PC_DECL_ID",
  "PC_DECL_NAME", "PC_DECL_CURR", "PC_INSURED_ID", "PC_INSURED_NAME", "PC_RUG", "PC_RUG_NAME",
  "PC_IO_ID", "PC_IO_NAME", "PC_IO_TYPE", "PC_CLAIM_BASIS", "LF_TRANS_TYPE", "LF_CALC_BASIS",
  "LF_SMOKER_STATUS", "LF_OCCUPATION_CLS", "LF_RISK_CLASS", "LF_DISABILITY_CLS", "LF_ESCALATION",
  "LF_IAB_IDENTIFIER", "LF_IO_PERSON_ID", "LF_IO_PERSON_NAME", "LF_IO_ALIAS",
  "LF_IO_BIRTH_COUNTRY", "LF_IO_NATIONALITY", "LF_IO_PERSON_STATUS", "LF_IO_GENDER",
  "REASON_FOR_CHANGE", "REA_LGT_CL_MANPT", "UDF_TXT4", "FRK_UDF_REF_DATA", "CLAIMS_TRIG",
  "CLAIMANT", "PC_ASSISTANCE_KEY", "CLAIM_STATUS", "PC_RUG_REASON_FOR_MANPROT",
  "CLAIM_SHORT_DESC", "FK_ORDER", "FK_LIGHT_DETAIL"
]

def backslashChar : Char := Char.ofNat 92
def quoteChar : Char := Char.ofNat 34
def aposChar : Char := Char.ofNat 39
def vtabChar : Char := Char.ofNat 11
def ffChar : Char := Char.ofNat 12

/-- Python regex whitespace characters. -/
def isPySpace (c : Char) : Bool :=
  c == ' ' || c == '\t' || c == '\n' || c == '\r' || c == vtabChar || c == ffChar

/-- Characters admitted by the sensitive-pattern tails: anything except
whitespace, semicolon, apostrophe, double quote. -/
def redactableChar (c : Char) : Bool :=
  !(isPySpace c || c == ';' || c == aposChar || c == quoteChar)

/-- Case-insensitive match of a lowercase literal at the head of the text,
returning the remainder on success. -/
def matchLitCI : List Char → List Char → Option (List Char)
  | [], cs => some cs
  | _ :: _, [] => none
  | l :: ls, c :: cs => if c.toLower = l then matchLitCI ls cs else none

/-- Match one sensitive-pattern occurrence at the head of the text: the
literal (case-insensitively), then, when needsMid is set, one of the
characters '=' or ':', then a maximal nonempty run of redactable
characters. Returns the remainder after the matched span. -/
def matchPat (lit : List Char) (needsMid : Bool) (cs : List Char) : Option (List Char) :=
  match matchLitCI lit cs with
  | none => none
  | some rest =>
    let afterMid : Option (List Char) :=
      if needsMid then
        match rest with
        | c :: cs2 => if c == '=' || c == ':' then some cs2 else none
        | [] => none
      else some rest
    match afterMid with
    | none => none
    | some rest2 =>
      let body := rest2.takeWhile redactableChar
      if body.isEmpty then none else some (rest2.drop body.length)

/-- One re.sub pass: scan left to right replacing non-overlapping matches;
replacement text is not rescanned. Fuel bounds the scan by text length. -/
def subPatAux (lit : List Char) (needsMid : Bool) (rep : List Char) :
    Nat → List Char → List Char
  | 0, cs => cs
  | _ + 1, [] => []
  | fuel + 1, c :: cs =>
    match matchPat lit needsMid (c :: cs) with
    | some tail => rep ++ subPatAux lit needsMid rep fuel tail
    | none => c :: subPatAux lit needsMid rep fuel cs

def subPat (lit : List Char) (needsMid : Bool) (rep : List Char) (cs : List Char) : List Char :=
  subPatAux lit needsMid rep cs.length cs

/-- sanitize_error_message applied to the driver error text: backslashes
become slashes, then the three case-insensitive substitutions redact
path-like runs after "c:/" and credential-like runs after a password/pwd
separator. -/
def sanitize_error_message (msg : String) : String :=
  let cs := msg.data.map (fun c => if c = backslashChar then '/' else c)
  let cs := subPat ['c', ':', '/'] false "[PATH]".data cs
  let cs := subPat "password".data true "password=[REDACTED]".data cs
  let cs := subPat "pwd".data true "pwd=[REDACTED]".data cs
  ⟨cs⟩

/-- Insertion into a sorted list of strings (ascending). -/
def insertSorted (a : String) : List String → List String
  | [] => [a]
  | b :: rest => if a ≤ b then a :: b :: rest else b :: insertSorted a rest

/-- Python sorted() on a set of strings: distinct elements in ascending
lexicographic order. -/
def sortStrings : List String → List String
  | [] => []
  | a :: rest => insertSorted a (sortStrings rest)

/-- set(required_columns) - set(dataframe.columns), sorted: the required
columns absent from the header, as reported by validate_csv_columns. -/
def missing_columns (required_columns dfColumns : List String) : List String :=
  sortStrings ((required_columns.filter (fun c => !dfColumns.contains c)).dedup)

/-- dataframe.replace with np.nan mapped to None: an empty cell becomes
the explicit absent marker None, text is kept raw. -/
def replace_nan : PCell → Option String
  | .nan => none
  | .str s => some s

/-- row[col] for a dataframe row: the value at the header position of the
column name. -/
def rowGet (header : List String) (row : List (Option String)) (col : String) : Option String :=
  row.getD (header.indexOf col) none

/-- Behaviour of one cursor.execute call: success, or a pyodbc.Error
carrying the raw driver message. -/
inductive DriverResp
  | ok
  | err (msg : String)
deriving DecidableEq, Repr

/-- State of the batch connection/transaction scope: statements executed,
rows inserted but not yet committed, rows durably committed, commits. -/
structure Conn where
  pending : List (List (Option String)) := []
  committed : List (List (Option String)) := []
  commits : Nat := 0
  executes : Nat := 0
deriving DecidableEq, Repr

/-- execute_insert: runs one parameterized INSERT; a pyodbc.Error is
caught and returned as a sanitized message instead of being raised, so
the surrounding transaction is not aborted. -/
def execute_insert (resp : DriverResp) (conn : Conn) (data : List (Option String)) :
    Conn × Option String :=
  match resp with
  | .ok => ({ conn with pending := conn.pending ++ [data], executes := conn.executes + 1 }, none)
  | .err msg => ({ conn with executes := conn.executes + 1 }, some (sanitize_error_message msg))

/-- connection.commit(): makes every pending insert durable. -/
def connection_commit (conn : Conn) : Conn :=
  { conn with
      pending := []
      committed := conn.committed ++ conn.pending
      commits := conn.commits + 1 }

/-- The data tuple built for one row: the row's values projected in the
fixed INSERT_COLUMN_ORDER, tuple(row[col] for col in INSERT_COLUMN_ORDER). -/
def dataOf (header : List String) (row : List (Option String)) : List (Option String) :=
  INSERT_COLUMN_ORDER.map (fun col => rowGet header row col)

/-- The per-record loop of DatabaseProcessor.process_file: for each row
build the data tuple in INSERT_COLUMN_ORDER, execute the insert, and file
the row under successful or failed records (failed rows get the sanitized
error appended). `driver i` is the driver response to the i-th execute.
Returns (final connection state, successful_records, failed_records). -/
def process_records (driver : Nat → DriverResp) (header : List String) :
    List (List (Option String)) → Nat → Conn →
      Conn × List (List (Option String)) × List (List (Option String))
  | [], _, conn => (conn, [], [])
  | row :: rest, i, conn =>
    let step := execute_insert (driver i) conn (dataOf header row)
    let result := process_records driver header rest (i + 1) step.1
    match step.2 with
    | some e => (result.1, result.2.1, (row ++ [some e]) :: result.2.2)
    | none => (result.1, row :: result.2.1, result.2.2)

/-- Whether a driver response is a success. -/
def driverOk : DriverResp → Bool
  | .ok => true
  | .err _ => false

/-- The raw driver message of a failing response. -/
def driverMsg : DriverResp → String
  | .ok => ""
  | .err m => m

/-- Data tuples of the rows whose insert succeeds, in row order. -/
def okDataList (driver : Nat → DriverResp) (header : List String)
    (rows : List (List (Option String))) (i : Nat) : List (List (Option String)) :=
  ((rows.enumFrom i).filter (fun p => driverOk (driver p.1))).map (fun p => dataOf header p.2)

@[simp] theorem driverOk_ok : driverOk .ok = true := rfl

@[simp] theorem driverOk_err (m : String) : driverOk (.err m) = false := rfl

@[simp] theorem driverMsg_err (m : String) : driverMsg (.err m) = m := rfl

theorem process_records_chr (driver : Nat → DriverResp) (header : List String) :
    ∀ (rows : List (List (Option String))) (i : Nat) (conn : Conn),
      (process_records driver header rows i conn).2.1 =
        ((rows.enumFrom i).filter (fun p => driverOk (driver p.1))).map Prod.snd ∧
      (process_records driver header rows i conn).2.2 =
        ((rows.enumFrom i).filter (fun p => !driverOk (driver p.1))).map
          (fun p => p.2 ++ [some (sanitize_error_message (driverMsg (driver p.1)))]) := by
  intro rows
  induction rows with
  | nil => intro i conn; simp [process_records]
  | cons row rest ih =>
    intro i conn
    simp only [process_records, List.enumFrom, List.filter_cons, List.map]
    cases hd : driver i with
    | ok =>
      simp only [execute_insert]
      have h := ih (i + 1) { conn with
        pending := conn.pending ++ [dataOf header row], executes := conn.executes + 1 }
      simp [h.1, h.2, hd]
    | err msg =>
      simp only [execute_insert]
      have h := ih (i + 1) { conn with executes := conn.executes + 1 }
      simp [h.1, h.2, hd]

theorem process_records_conn (driver : Nat → DriverResp) (header : List String) :
    ∀ (rows : List (List (Option String))) (i : Nat) (conn : Conn),
      (process_records driver header rows i conn).1 =
        { conn with
            pending := conn.pending ++ okDataList driver header rows i
            executes := conn.executes + rows.length } := by
  intro rows
  induction rows with
  | nil => intro i conn; simp [process_records, okDataList]
  | cons row rest ih =>
    intro i conn
    simp only [process_records, okDataList, List.enumFrom, List.filter_cons]
    cases hd : driver i with
    | ok =>
      simp only [execute_insert]
      rw [ih (i + 1)]
      simp [okDataList, hd, List.append_assoc, Conn.mk.injEq]
      omega
    | err msg =>
      simp only [execute_insert]
      rw [ih (i + 1)]
      simp [okDataList, hd, Conn.mk.injEq]
      omega

theorem process_records_length (driver : Nat → DriverResp) (header : List String)
    (rows : List (List (Option String))) (i : Nat) (conn : Conn) :
    (process_records driver header rows i conn).2.1.length +
      (process_records driver header rows i conn).2.2.length = rows.length := by
  induction rows generalizing i conn with
  | nil => simp [process_records]
  | cons row rest ih =>
    simp only [process_records]
    cases driver i with
    | ok =>
      simp only [execute_insert, List.length_cons]
      have := ih (i + 1) { conn with
        pending := conn.pending ++ [dataOf header row], executes := conn.executes + 1 }
      omega
    | err msg =>
      simp only [execute_insert, List.length_cons]
      have := ih (i + 1) { conn with executes := conn.executes + 1 }
      omega

/-- Rows of the error artifact written by _write_error_file: nothing at
all for an empty group, otherwise the COLUMNS_TO_USE header with the
extra ERROR column followed by the failed records. -/
def write_error_rows (records : List (List (Option String))) :
    Option (List (List (Option String))) :=
  if records.isEmpty then none
  else some (((COLUMNS_TO_USE ++ ["ERROR"]).map some) :: records)

/-- Rows of the success artifact written by _write_success_file: nothing
for an empty group, otherwise the COLUMNS_TO_USE header then the records. -/
def write_success_rows (records : List (List (Option String))) :
    Option (List (List (Option String))) :=
  if records.isEmpty then none
  else some ((COLUMNS_TO_USE.map some) :: records)

/-- original_filename.replace('.', '_error.'): every dot is replaced. -/
def pyReplaceDot (rep : List Char) (cs : List Char) : List Char :=
  (cs.map (fun c => if c = '.' then rep else [c])).flatten

def ced_error_filename (original_filename : String) : String :=
  ⟨pyReplaceDot "_error.".data original_filename.data⟩

def ced_ok_filename (original_filename : String) : String :=
  ⟨pyReplaceDot "_ok.".data original_filename.data⟩

/-- Exceptions process_file lets escape: the ValueError of
validate_csv_columns naming the missing columns, or a connection-level
pyodbc.Error. -/
inductive CedError
  | missingColumnsError (missing : List String)
  | connectError (msg : String)
deriving DecidableEq, Repr

/-- What process_file produces when it returns normally. -/
structure FileOutcome where
  successful_records : List (List (Option String))
  failed_records : List (List (Option String))
  errorArtifact : Option (List (List (Option String)))
  successArtifact : Option (List (List (Option String)))
  allSucceeded : Bool
deriving DecidableEq, Repr

/-- DatabaseProcessor.process_file: validate the required columns against
the header (raising before any connection or insert on a missing column),
replace NaN by None, open the connection (a failure is fatal for the
file), run the per-record loop, commit once, write the two artifacts, and
report whether every record succeeded. The returned Conn records the
database side effects (empty when the file failed validation/connect). -/
def ced_process_file (connectOk : Bool) (driver : Nat → DriverResp)
    (header : List String) (rawRows : List (List PCell)) :
    Conn × Except CedError FileOutcome :=
  let missing := missing_columns INSERT_COLUMN_ORDER header
  if missing = [] then
    let rows := rawRows.map (fun r => r.map replace_nan)
    if connectOk then
      let result := process_records driver header rows 0 {}
      let conn := connection_commit result.1
      (conn, .ok {
        successful_records := result.2.1
        failed_records := result.2.2
        errorArtifact := write_error_rows result.2.2
        successArtifact := write_success_rows result.2.1
        allSucceeded := result.2.2.isEmpty })
    else ({}, .error (.connectError "Database connection error"))
  else ({}, .error (.missingColumnsError missing))

/-- Staging behaviour of one file inside the per-file try of main: the
events that complete, in order, and whether an exception was raised. The
success artifact is uploaded before the error artifact; uploads precede
the remote delete, which precedes the local unlink. Every listed failure
kind (ValueError, pyodbc.Error, ClientError, OSError) is caught by the
per-file handler. -/
def ced_file_step (processFails successExists uploadSuccessFails errorExists
    uploadErrorFails deleteRemoteFails deleteLocalFails : Bool) :
    List Ev × Bool :=
  if processFails then ([], true)
  else if successExists && uploadSuccessFails then ([], true)
  else
    let t1 : List Ev := if successExists then [.uploadSuccessArtifact] else []
    if errorExists && uploadErrorFails then (t1, true)
    else
      let t2 := t1 ++ (if errorExists then [.uploadErrorArtifact] else [])
      if deleteRemoteFails then (t2, true)
      else
        let t3 := t2 ++ [Ev.deleteRemote]
        if deleteLocalFails then (t3, true)
        else (t3 ++ [Ev.deleteLocal], false)

/-- The per-file loop of main: each file's failure is caught by its own
except handlers (continue), so every downloaded file is visited no matter
how earlier files failed. Records, per file, its event trace and whether
it failed. -/
def ced_main_loop (steps : Nat → List Ev × Bool) : List String → Nat →
    List (String × List Ev × Bool)
  | [], _ => []
  | f :: rest, i => (f, steps i) :: ced_main_loop steps rest (i + 1)

end CED

namespace XRT

theorem takeUntil_append_sep (a b : List Char) (h : hasDotSpace a = false) :
    takeUntilSentenceEnd (a ++ '.' :: ' ' :: b) = a := by
  induction a with
  | nil => simp [takeUntilSentenceEnd]
  | cons c rest ih =>
    simp only [hasDotSpace, Bool.or_eq_false_iff] at h
    simp only [List.cons_append, takeUntilSentenceEnd, List.append_eq]
    have hng : ¬(c = '.' ∧ (rest ++ '.' :: ' ' :: b).head? = some ' ') := by
      intro hc
      cases rest with
      | nil => simp at hc
      | cons r rs =>
        obtain ⟨hc1, hc2⟩ := hc
        simp only [List.cons_append, List.head?_cons, Option.some.injEq] at hc2
        have h1 := h.1
        simp [hc1, hc2] at h1
    rw [if_neg hng]
    exact congrArg (List.cons c) (ih h.2)

theorem takeWhile_append_all {α : Type} (p : α → Bool) (l r : List α)
    (h : ∀ a ∈ l, p a = true) :
    (l ++ r).takeWhile p = l ++ r.takeWhile p := by
  induction l with
  | nil => simp
  | cons a t ih =>
    have ha := h a (by simp)
    simp [List.takeWhile_cons, ha, ih (fun x hx => h x (by simp [hx]))]

theorem dropWhile_append_all {α : Type} (p : α → Bool) (l r : List α)
    (h : ∀ a ∈ l, p a = true) :
    (l ++ r).dropWhile p = r.dropWhile p := by
  induction l with
  | nil => simp
  | cons a t ih =>
    rw [List.cons_append, List.dropWhile_cons]
    simp only [h a (by simp), if_true]
    exact ih (fun x hx => h x (by simp [hx]))

end XRT

namespace CED

theorem pyReplaceDot_no_dot (rep : List Char) (l : List Char) (h : '.' ∉ l) :
    pyReplaceDot rep l = l := by
  induction l with
  | nil => rfl
  | cons c t ih =>
    have hc : c ≠ '.' := fun e => h (by simp [e])
    simp only [pyReplaceDot, List.map_cons, List.flatten_cons] at *
    rw [if_neg hc]
    simp only [List.singleton_append, List.cons.injEq, true_and]
    exact ih (fun m => h (List.mem_cons_of_mem c m))

theorem pyReplaceDot_append (rep l1 l2 : List Char) :
    pyReplaceDot rep (l1 ++ l2) = pyReplaceDot rep l1 ++ pyReplaceDot rep l2 := by
  simp [pyReplaceDot]

theorem pyReplaceDot_dot (rep : List Char) (t : List Char) :
    pyReplaceDot rep ('.' :: t) = rep ++ pyReplaceDot rep t := by
  simp [pyReplaceDot]

theorem missing_columns_self (l : List String) : missing_columns l l = [] := by
  unfold missing_columns
  have hf : l.filter (fun c => !l.contains c) = [] := by
    apply List.filter_eq_nil_iff.mpr
    intro a ha
    simp [ha]
  rw [hf]
  rfl

/-- The dataframe rows after replace({np.nan: None}). -/
def cleanRows (rawRows : List (List PCell)) : List (List (Option String)) :=
  rawRows.map (fun r => r.map replace_nan)

/-- Rows whose insert succeeded, in original order. -/
def okRecords (driver : Nat → DriverResp) (rows : List (List (Option String))) (i : Nat) :
    List (List (Option String)) :=
  ((rows.enumFrom i).filter (fun p => driverOk (driver p.1))).map Prod.snd

/-- Rows whose insert failed, in original order, each with the sanitized
driver error appended as an extra column. -/
def errRecords (driver : Nat → DriverResp) (rows : List (List (Option String))) (i : Nat) :
    List (List (Option String)) :=
  ((rows.enumFrom i).filter (fun p => !driverOk (driver p.1))).map
    (fun p => p.2 ++ [some (sanitize_error_message (driverMsg (driver p.1)))])

end CED

/-- C1: after all records of a batch have been submitted to the sink,
every record is placed in exactly one of the two result groups: in the XRT
variant the reported counts sum to the batch size and the error/success
groups are the complementary filters (by failing service call) of the
indexed rows; in the CED variant the successful and failed record lists
are the complementary filters (by failing insert) of the indexed rows and
their sizes sum to the batch size. Complementary filters mean no record is
in both groups and none is dropped. -/
theorem C1_record_partition :
    (∀ (svc : Nat → XRT.WsResponse) (rows : List XRT.Row),
      (XRT.xrt_process_file svc rows).success_count +
          (XRT.xrt_process_file svc rows).error_count = rows.length ∧
      (XRT.processRows svc rows 0).2 =
        ((rows.enumFrom 0).filter (fun p => (XRT.rowFailMsg svc p.1).isNone)).map Prod.snd ∧
      (XRT.processRows svc rows 0).1 =
        ((rows.enumFrom 0).filter (fun p => (XRT.rowFailMsg svc p.1).isSome)).map
          (fun p => p.2 ++ [PCell.str (XRT.truncate_reason ((XRT.rowFailMsg svc p.1).getD ""))])) ∧
    (∀ (driver : Nat → CED.DriverResp) (header : List String)
        (rows : List (List (Option String))) (i : Nat) (conn : CED.Conn),
      (CED.process_records driver header rows i conn).2.1.length +
          (CED.process_records driver header rows i conn).2.2.length = rows.length ∧
      (CED.process_records driver header rows i conn).2.1 = CED.okRecords driver rows i ∧
      (CED.process_records driver header rows i conn).2.2 = CED.errRecords driver rows i) := by
  constructor
  · intro svc rows
    refine ⟨?_, (XRT.processRows_chr svc rows 0).2, (XRT.processRows_chr svc rows 0).1⟩
    have hlen := XRT.processRows_length svc rows 0
    simp only [XRT.xrt_process_file]
    split_ifs with h1 h2 h2 <;> simp [h1, h2] at hlen ⊢ <;> omega
  · intro driver header rows i conn
    refine ⟨CED.process_records_length driver header rows i conn,
      (CED.process_records_chr driver header rows i conn).1,
      (CED.process_records_chr driver header rows i conn).2⟩

/-- C2 counterexample: in the XRT pipeline there is no per-file handler; a
fatal error while processing the first of two files propagates out of the
per-file loop, so the run aborts with that error and the second file is
never processed (the claim says the loop would proceed to the next file
and the run would never abort). -/
theorem C2_counterexample :
    XRT.xrt_run_loop
        (fun i => if i = 0 then ([], true) else ([Ev.deleteRemote, Ev.deleteLocal], false))
        ["first.csv", "second.csv"] 0 = .error "first.csv" := by
  rfl

/-- C2 (amended): per-file isolation holds in the CED pipeline, whose
per-file handlers catch every fatal-per-file error kind (schema
ValueError, sink-connection pyodbc.Error, staging/transport ClientError,
local-filesystem OSError) and continue, so the loop visits every file no
matter which files fail. In the XRT pipeline a per-file failure instead
aborts the run at the first failing file; only a run in which no file
fails processes them all. -/
theorem C2_per_file_isolation_amended :
    (∀ (steps : Nat → List Ev × Bool) (files : List String) (i : Nat),
      (CED.ced_main_loop steps files i).map Prod.fst = files) ∧
    (∀ (steps : Nat → List Ev × Bool) (f : String) (rest : List String) (i : Nat),
      (steps i).2 = true → XRT.xrt_run_loop steps (f :: rest) i = .error f) ∧
    (∀ (steps : Nat → List Ev × Bool) (files : List String) (i : Nat),
      (∀ j, (steps j).2 = false) → XRT.xrt_run_loop steps files i = .ok files) := by
  refine ⟨?_, ?_, ?_⟩
  · intro steps files
    induction files with
    | nil => intro i; rfl
    | cons f rest ih =>
      intro i
      simp [CED.ced_main_loop, ih (i + 1)]
  · intro steps f rest i h
    simp [XRT.xrt_run_loop, h]
  · intro steps files
    induction files with
    | nil => intro i _; rfl
    | cons f rest ih =>
      intro i h
      simp [XRT.xrt_run_loop, h i, ih (i + 1) h]

/-- C2 witness: with every file failing, the CED loop still visits both
files, while the XRT loop aborts at the first one. -/
theorem C2_per_file_isolation_amended_witness :
    (CED.ced_main_loop (fun _ => ([], true)) ["a.csv", "b.csv"] 0).map Prod.fst
        = ["a.csv", "b.csv"] ∧
    XRT.xrt_run_loop (fun _ => ([], true)) ["a.csv", "b.csv"] 0 = .error "a.csv" :=
  ⟨C2_per_file_isolation_amended.1 (fun _ => ([], true)) ["a.csv", "b.csv"] 0,
   C2_per_file_isolation_amended.2.1 (fun _ => ([], true)) "a.csv" ["b.csv"] 0 rfl⟩

/-- C3: in both pipeline variants, over every per-file behaviour, the
result artifacts that exist are uploaded strictly before the original
object is deleted from the remote pending prefix, the remote deletion
strictly precedes the local deletion, and a failure before the uploads
(process/parse failure) leaves the file deleted from neither location; if
the file step failed anywhere, the local pending copy was never deleted. -/
theorem C3_staging_order :
    (∀ (pf sx usf ex uef drf dlf : Bool),
      staged_ok sx ex (CED.ced_file_step pf sx usf ex uef drf dlf).1 ∧
      (pf = true → (CED.ced_file_step pf sx usf ex uef drf dlf).1 = []) ∧
      ((CED.ced_file_step pf sx usf ex uef drf dlf).2 = true →
        Ev.deleteLocal ∉ (CED.ced_file_step pf sx usf ex uef drf dlf).1)) ∧
    (∀ (pf he uef mef hs uof mof drf dlf : Bool),
      staged_ok hs he (XRT.xrt_file_step pf he uef mef hs uof mof drf dlf).1 ∧
      (pf = true → (XRT.xrt_file_step pf he uef mef hs uof mof drf dlf).1 = []) ∧
      ((XRT.xrt_file_step pf he uef mef hs uof mof drf dlf).2 = true →
        Ev.deleteLocal ∉ (XRT.xrt_file_step pf he uef mef hs uof mof drf dlf).1)) := by
  constructor <;> decide

/-- C3 witness: a file whose processing fails produces an empty trace (no
deletion anywhere), and an XRT file whose error-artifact upload fails
never has its local pending copy deleted. -/
theorem C3_staging_order_witness :
    staged_ok true true (CED.ced_file_step true true false true false false false).1 ∧
    (CED.ced_file_step true true false true false false false).1 = [] ∧
    Ev.deleteLocal ∉ (XRT.xrt_file_step false true true false false false false false false).1 :=
  ⟨(C3_staging_order.1 true true false true false false false).1,
   (C3_staging_order.1 true true false true false false false).2.1 rfl,
   (C3_staging_order.2 false true true false false false false false false).2.2 (by decide)⟩

/-- C4: submit never raises past the submit boundary and always yields an
outcome. In the remote-call variant every response constructor yields a
returned outcome: a Timeout or ConnectionError yields the fixed
human-readable message whatever the raw transport error text was (in
particular it never returns the raw transport text itself), an
application fault yields the extracted explanation, success yields none.
In the bulk-insert variant execute_insert returns none on success and the
sanitized driver message on a driver error, for every response. -/
theorem C4_submit_always_outcome :
    (∀ raw, XRT.call_exchange_rate_service (.timeout raw) = some XRT.connectionFailedMessage) ∧
    (∀ raw, XRT.call_exchange_rate_service (.connError raw) = some XRT.connectionFailedMessage) ∧
    (∀ raw, raw ≠ XRT.connectionFailedMessage →
      XRT.call_exchange_rate_service (.timeout raw) ≠ some raw) ∧
    (∀ expl, XRT.call_exchange_rate_service (.fault expl) = some expl) ∧
    (XRT.call_exchange_rate_service .ok = none) ∧
    (∀ (resp : CED.DriverResp) (conn : CED.Conn) (data : List (Option String)),
      (CED.execute_insert resp conn data).2 =
        if CED.driverOk resp then none
        else some (CED.sanitize_error_message (CED.driverMsg resp))) := by
  refine ⟨fun raw => rfl, fun raw => rfl, ?_, fun expl => rfl, rfl, ?_⟩
  · intro raw hne heq
    exact hne (by simpa [XRT.call_exchange_rate_service] using heq.symm)
  · intro resp conn data
    cases resp <;> simp [CED.execute_insert, CED.driverOk, CED.driverMsg]

/-- C4 witness: a concrete raw transport error is not echoed back; the
fixed message is returned instead. -/
theorem C4_submit_always_outcome_witness :
    XRT.call_exchange_rate_service (.timeout "Connection refused by 10.0.0.7")
        ≠ some "Connection refused by 10.0.0.7" ∧
    XRT.call_exchange_rate_service (.timeout "Connection refused by 10.0.0.7")
        = some XRT.connectionFailedMessage :=
  ⟨C4_submit_always_outcome.2.2.1 "Connection refused by 10.0.0.7" (by decide),
   C4_submit_always_outcome.1 "Connection refused by 10.0.0.7"⟩

/-- C5: for every input file whose header is missing one or more required
columns (the CED variant is the one that declares a required-column
schema; the XRT variant declares none, reading with header=None, so the
claim's hypothesis is never satisfiable there), processing fails with the
ValueError naming the sorted missing columns, and the returned connection
state is the empty one: no insert executed (executes = 0), nothing
pending or committed, no commit, and no batch/outcome handed onward. -/
theorem C5_schema_error_aborts :
    ∀ (connectOk : Bool) (driver : Nat → CED.DriverResp) (header : List String)
      (rawRows : List (List PCell)),
      CED.missing_columns CED.INSERT_COLUMN_ORDER header ≠ [] →
      CED.ced_process_file connectOk driver header rawRows =
        ({}, .error (.missingColumnsError
          (CED.missing_columns CED.INSERT_COLUMN_ORDER header))) := by
  intro connectOk driver header rawRows h
  simp only [CED.ced_process_file]
  rw [if_neg h]

/-- C5 witness: a header missing exactly the VERSION column is rejected
with that column named, and no sink call is made. -/
theorem C5_schema_error_aborts_witness :
    CED.missing_columns CED.INSERT_COLUMN_ORDER (CED.INSERT_COLUMN_ORDER.erase "VERSION")
        ≠ [] ∧
    CED.ced_process_file true (fun _ => .ok) (CED.INSERT_COLUMN_ORDER.erase "VERSION") [] =
      ({}, .error (.missingColumnsError ["VERSION"])) := by
  have hm : CED.missing_columns CED.INSERT_COLUMN_ORDER
      (CED.INSERT_COLUMN_ORDER.erase "VERSION") = ["VERSION"] := by decide
  constructor
  · simp [hm]
  · have h := C5_schema_error_aborts true (fun _ => .ok)
      (CED.INSERT_COLUMN_ORDER.erase "VERSION") [] (by simp [hm])
    rw [hm] at h
    exact h

/-- C6: in the bulk-transactional variant, with a valid header and a
working connection, a record-level failure is converted into a recorded
failure without aborting the transaction: process_file returns normally
with the failed rows collected (sanitized error appended), every row is
attempted (executes equals the batch size), the transaction is committed
exactly once (commits = 1, nothing left pending), and the committed rows
are exactly the data tuples of the rows whose individual insert
succeeded, even when other rows in the batch failed. Only a
connection-level failure is fatal: with a failing connection the file
raises a connection error instead of returning an outcome. -/
theorem C6_transaction_best_effort :
    ∀ (driver : Nat → CED.DriverResp) (header : List String)
      (rawRows : List (List PCell)),
      CED.missing_columns CED.INSERT_COLUMN_ORDER header = [] →
      CED.ced_process_file true driver header rawRows =
        (⟨[], CED.okDataList driver header (CED.cleanRows rawRows) 0, 1,
            (CED.cleanRows rawRows).length⟩,
         .ok ⟨CED.okRecords driver (CED.cleanRows rawRows) 0,
              CED.errRecords driver (CED.cleanRows rawRows) 0,
              CED.write_error_rows (CED.errRecords driver (CED.cleanRows rawRows) 0),
              CED.write_success_rows (CED.okRecords driver (CED.cleanRows rawRows) 0),
              (CED.errRecords driver (CED.cleanRows rawRows) 0).isEmpty⟩) ∧
      (CED.ced_process_file false driver header rawRows).2 =
        .error (.connectError "Database connection error") := by
  intro driver header rawRows h
  have hc := CED.process_records_conn driver header (CED.cleanRows rawRows) 0 {}
  have hr := CED.process_records_chr driver header (CED.cleanRows rawRows) 0 {}
  constructor
  · simp only [CED.cleanRows] at hc hr
    simp [CED.ced_process_file, h, CED.connection_commit, hc, hr.1, hr.2,
      CED.okRecords, CED.errRecords, CED.cleanRows]
  · simp [CED.ced_process_file, h]

/-- C6 witness: a two-row batch whose second insert fails still returns
normally with exactly one commit. -/
theorem C6_transaction_best_effort_witness :
    CED.missing_columns CED.INSERT_COLUMN_ORDER CED.INSERT_COLUMN_ORDER = [] ∧
    (CED.ced_process_file true
        (fun i => if i = 0 then .ok else .err "constraint violation")
        CED.INSERT_COLUMN_ORDER [[PCell.str "a"], [PCell.str "b"]]).1.commits = 1 := by
  refine ⟨CED.missing_columns_self _, ?_⟩
  rw [(C6_transaction_best_effort
      (fun i => if i = 0 then .ok else .err "constraint violation")
      CED.INSERT_COLUMN_ORDER [[PCell.str "a"], [PCell.str "b"]]
      (CED.missing_columns_self _)).1]

namespace XRT

theorem rsplitExt_append (base ext : List Char) (hext : '.' ∉ ext) :
    rsplitExt (base ++ '.' :: ext) = some (base, ext) := by
  have hall : ∀ a ∈ ext.reverse, (a != '.') = true := by
    intro a ha
    simp only [bne_iff_ne, ne_eq]
    intro e
    exact hext (by simpa [e] using List.mem_reverse.mp ha)
  have h1 : (base ++ '.' :: ext).reverse = ext.reverse ++ '.' :: base.reverse := by
    simp [List.reverse_append]
  have h2 : ('.' :: base.reverse).takeWhile (fun c => c != '.') = [] := by
    simp [List.takeWhile_cons]
  have h3 : ('.' :: base.reverse).dropWhile (fun c => c != '.') = '.' :: base.reverse := by
    simp [List.dropWhile_cons]
  simp only [rsplitExt, h1, takeWhile_append_all _ _ _ hall, dropWhile_append_all _ _ _ hall,
    h2, h3, List.append_nil, List.reverse_reverse]

end XRT

/-- C7 counterexample: the CED naming uses str.replace('.', '_error.'),
which inserts the suffix at every dot, so for an input filename with two
dots the derived error artifact name is not the claimed single insertion
immediately before the extension. -/
theorem C7_counterexample :
    CED.ced_error_filename "data.2024.csv" = "data_error.2024_error.csv" ∧
    CED.ced_error_filename "data.2024.csv" ≠ "data.2024_error.csv" := by
  constructor
  · rfl
  · decide

/-- C7 (amended): the XRT variant implements the convention for every
filename of the form <base>.<ext> with a dot-free extension, including
bases that contain further dots: the suffix is inserted exactly once,
immediately before the last-dot extension. The CED variant inserts its
suffix before every dot, so it agrees with the convention exactly for
filenames with a single dot (dot-free base and extension). -/
theorem C7_output_naming_amended :
    (∀ (base ext : List Char) (sfx : String), '.' ∉ ext →
      XRT.xrt_output_filename ⟨base ++ '.' :: ext⟩ sfx =
        ⟨base ++ sfx.data ++ '.' :: ext⟩) ∧
    (∀ (base ext : List Char), '.' ∉ base → '.' ∉ ext →
      CED.ced_error_filename ⟨base ++ '.' :: ext⟩ = ⟨base ++ "_error.".data ++ ext⟩ ∧
      CED.ced_ok_filename ⟨base ++ '.' :: ext⟩ = ⟨base ++ "_ok.".data ++ ext⟩) := by
  constructor
  · intro base ext sfx hext
    show (match XRT.rsplitExt (base ++ '.' :: ext) with
      | some (b, e) => (⟨b ++ sfx.data ++ '.' :: e⟩ : String)
      | none => (⟨base ++ '.' :: ext⟩ : String) ++ sfx) = ⟨base ++ sfx.data ++ '.' :: ext⟩
    rw [XRT.rsplitExt_append base ext hext]
  · intro base ext hb he
    constructor
    · show (⟨CED.pyReplaceDot "_error.".data (base ++ '.' :: ext)⟩ : String) = _
      rw [CED.pyReplaceDot_append, CED.pyReplaceDot_dot,
        CED.pyReplaceDot_no_dot _ _ hb, CED.pyReplaceDot_no_dot _ _ he]
      exact congrArg String.mk (List.append_assoc base "_error.".data ext).symm
    · show (⟨CED.pyReplaceDot "_ok.".data (base ++ '.' :: ext)⟩ : String) = _
      rw [CED.pyReplaceDot_append, CED.pyReplaceDot_dot,
        CED.pyReplaceDot_no_dot _ _ hb, CED.pyReplaceDot_no_dot _ _ he]
      exact congrArg String.mk (List.append_assoc base "_ok.".data ext).symm

/-- C7 witness: the naming convention instantiated on report.csv. -/
theorem C7_output_naming_amended_witness :
    XRT.xrt_output_filename "report.csv" "_ok" = "report_ok.csv" ∧
    CED.ced_error_filename "report.csv" = "report_error.csv" := by
  constructor
  · exact C7_output_naming_amended.1 "report".data "csv".data "_ok" (by decide)
  · exact (C7_output_naming_amended.2 "report".data "csv".data
      (by decide) (by decide)).1

/-- C8 counterexample: in the XRT variant a non-empty failure group is
written with header=False and no header row is ever added: the artifact
for one failed record has exactly that one row, whose content is the
failed record itself, not a column-list header followed by the record. -/
theorem C8_counterexample :
    (XRT.xrt_process_file (fun _ => .fault "bad") [[PCell.str "1"]]).error_file =
      some [[PCell.str "1", PCell.str "bad"]] ∧
    ((XRT.xrt_process_file (fun _ => .fault "bad") [[PCell.str "1"]]).error_file.getD []).length
      = 1 := by
  constructor
  · rfl
  · rfl

/-- C8 (amended): in the CED variant every non-empty group is serialized
with a leading header row (COLUMNS_TO_USE, plus ERROR for the failure
group) and an empty group produces no file; in the XRT variant an empty
group likewise produces no file, but a non-empty group's artifact is
exactly the records with no header row (its input is read with
header=None, so there is no column list). -/
theorem C8_artifact_layout_amended :
    (∀ records : List (List (Option String)), records ≠ [] →
      CED.write_error_rows records =
        some (((CED.COLUMNS_TO_USE ++ ["ERROR"]).map some) :: records) ∧
      CED.write_success_rows records = some ((CED.COLUMNS_TO_USE.map some) :: records)) ∧
    CED.write_error_rows [] = none ∧
    CED.write_success_rows [] = none ∧
    (∀ (svc : Nat → XRT.WsResponse) (rows : List XRT.Row),
      ((XRT.processRows svc rows 0).1 = [] →
        (XRT.xrt_process_file svc rows).error_file = none) ∧
      ((XRT.processRows svc rows 0).1 ≠ [] →
        (XRT.xrt_process_file svc rows).error_file = some (XRT.processRows svc rows 0).1) ∧
      ((XRT.processRows svc rows 0).2 = [] →
        (XRT.xrt_process_file svc rows).success_file = none) ∧
      ((XRT.processRows svc rows 0).2 ≠ [] →
        (XRT.xrt_process_file svc rows).success_file = some (XRT.processRows svc rows 0).2)) := by
  refine ⟨?_, rfl, rfl, ?_⟩
  · intro records h
    rw [CED.write_error_rows, CED.write_success_rows]
    simp [List.isEmpty_iff, h]
  · intro svc rows
    refine ⟨?_, ?_, ?_, ?_⟩ <;> intro h <;>
      simp only [XRT.xrt_process_file, XRT.xrt_artifact_rows] <;>
        split_ifs <;> simp_all

/-- C8 witness: one failed record in the CED variant yields the
header-led artifact; the empty success group yields no file. -/
theorem C8_artifact_layout_amended_witness :
    CED.write_error_rows [[some "x", none]] =
      some (((CED.COLUMNS_TO_USE ++ ["ERROR"]).map some) :: [[some "x", none]]) ∧
    (XRT.xrt_process_file (fun _ => .ok) []).error_file = none :=
  ⟨(C8_artifact_layout_amended.1 [[some "x", none]] (by simp)).1,
   (C8_artifact_layout_amended.2.2.2 (fun _ => .ok) []).1 rfl⟩

/-- C9 counterexample: in the XRT variant an absent (NaN) cell is
serialized into the record handed to the sink as the literal text "nan",
indistinguishable from a field that really contains the text "nan" — not
as an explicit absent marker (the CED variant does map NaN to None). -/
theorem C9_counterexample :
    XRT.csvRecordOf [PCell.nan] = "nan" ∧
    XRT.csvRecordOf [PCell.nan] = XRT.csvRecordOf [PCell.str "nan"] ∧
    CED.replace_nan PCell.nan = none :=
  ⟨rfl, rfl, rfl⟩

/-- C9 (amended): the CED variant keeps every value as raw text and maps
every NaN cell to the explicit absent marker None before the record is
handed to the sink or serialized (every cell handed on is either none or
the raw text of a cell of the source row); the XRT variant instead
renders absent cells as the literal text "nan" in the string submitted to
the remote service, so the submitted record is identical to the one
obtained by replacing every absent cell with the text "nan". -/
theorem C9_raw_text_amended :
    (CED.replace_nan PCell.nan = none) ∧
    (∀ s, CED.replace_nan (PCell.str s) = some s) ∧
    (∀ (r : List PCell) (v : Option String), v ∈ r.map CED.replace_nan →
      v = none ∨ ∃ s, v = some s ∧ PCell.str s ∈ r) ∧
    (∀ row : List PCell,
      XRT.csvRecordOf (row.map (fun c => if c = PCell.nan then PCell.str "nan" else c)) =
        XRT.csvRecordOf row) := by
  refine ⟨rfl, fun s => rfl, ?_, ?_⟩
  · intro r v hv
    obtain ⟨c, hc, hvc⟩ := List.mem_map.mp hv
    cases c with
    | nan => left; exact hvc.symm
    | str s => right; exact ⟨s, hvc.symm, hc⟩
  · intro row
    unfold XRT.csvRecordOf
    rw [List.map_map]
    refine congrArg _ (List.map_congr_left ?_)
    intro c _
    cases c <;> rfl

/-- C9 witness: the absent cell of a one-cell row is handed to the CED
sink as none, and the XRT record for an absent cell coincides with the
record for the literal text "nan". -/
theorem C9_raw_text_amended_witness :
    ((none : Option String) = none ∨
      ∃ s, (none : Option String) = some s ∧ PCell.str s ∈ [PCell.nan]) ∧
    XRT.csvRecordOf ([PCell.nan].map (fun c => if c = PCell.nan then PCell.str "nan" else c)) =
      XRT.csvRecordOf [PCell.nan] :=
  ⟨C9_raw_text_amended.2.2.1 [PCell.nan] none (by decide),
   C9_raw_text_amended.2.2.2 [PCell.nan]⟩

/-- C10: every record in the XRT failure group carries, as its appended
last column, the failure message truncated at the first occurrence of
the separator ". " (error_message.split(". ")[0]); for a message of the
shape a ++ ". " ++ b with no earlier separator in a, exactly a is kept,
and in particular the fixed transport-failure message is recorded as only
its first sentence. -/
theorem C10_failure_reason_truncated :
    (∀ (svc : Nat → XRT.WsResponse) (rows : List XRT.Row) (i : Nat),
      (XRT.processRows svc rows i).1 =
        ((rows.enumFrom i).filter (fun p => (XRT.rowFailMsg svc p.1).isSome)).map
          (fun p => p.2 ++ [PCell.str (XRT.truncate_reason ((XRT.rowFailMsg svc p.1).getD ""))])) ∧
    (∀ (a b : List Char), XRT.hasDotSpace a = false →
      XRT.truncate_reason ⟨a ++ '.' :: ' ' :: b⟩ = ⟨a⟩) ∧
    XRT.truncate_reason XRT.connectionFailedMessage =
      "SICS server connection attempt has failed" := by
  refine ⟨fun svc rows i => (XRT.processRows_chr svc rows i).1, ?_, by decide⟩
  intro a b h
  exact congrArg String.mk (XRT.takeUntil_append_sep a b h)

/-- C10 witness: the fixed transport message split at its first ". ". -/
theorem C10_failure_reason_truncated_witness :
    XRT.truncate_reason
        ⟨"SICS server connection attempt has failed".data ++
          '.' :: ' ' :: "Please try again.".data⟩ =
      "SICS server connection attempt has failed" :=
  C10_failure_reason_truncated.2.1 "SICS server connection attempt has failed".data
    "Please try again.".data (by decide)
